import Mathlib

/-!
Shallow embedding of `src/rang.py`, a two-pane curses file browser, together
with proofs of the specification's claims about its navigation/render loop.

Paths are modelled as lists of components below the filesystem root (`[]` is
the root `/`), the filesystem as an association list from existing paths to
nodes, machine strings as Lean strings (Python compares strings by code
points, as Lean does), and Python's fallible operations (`files[i]`,
`os.remove`, `os.rename`, `os.mkdir`) as `Option`/`Except`-valued functions.
The curses key codes are fixed distinct integers; only their identity and
distinctness matter to the dispatch logic.
-/

namespace Rang

/-- Filesystem path: the list of components below the root. `[]` is the root. -/
abbrev FsPath := List String

/-- Model of `pathlib.Path.parent`: drop the last component; the parent of the
root is the root itself (`Path("/").parent == Path("/")`). -/
def parent (p : FsPath) : FsPath := p.dropLast

/-- Filesystem node: a regular file with its text contents, or a directory. -/
inductive Node where
  | file (contents : String) : Node
  | dir : Node
deriving DecidableEq

/-- The filesystem: an association list from existing paths to their nodes. -/
abbrev FS := List (FsPath × Node)

/-- Look up the node at path `p`, if `p` exists in the filesystem. -/
def findNode (fs : FS) (p : FsPath) : Option Node :=
  (fs.find? (fun e => decide (e.1 = p))).map (fun e => e.2)

/-- Model of `pathlib.Path.is_dir()`: true iff the path exists and is a
directory (returns `False`, with no exception, on missing paths). -/
def is_dir (fs : FS) (p : FsPath) : Bool :=
  decide (findNode fs p = some Node.dir)

/-- The immediate children of directory `d`: the filesystem entries whose path
is `d ++ [n]`, as `(n, node)` pairs in filesystem enumeration order. This is
what `current_dir.iterdir()` / `os.listdir` enumerate. -/
def childrenOf (fs : FS) (d : FsPath) : List (String × Node) :=
  fs.filterMap (fun e =>
    match e.1.getLast? with
    | some n => if e.1.dropLast = d then some (n, e.2) else none
    | none => none)

/-- Lexicographic less-or-equal on character lists by code point: exactly how
Python compares two strings. -/
def lexLe : List Char → List Char → Bool
  | [], _ => true
  | _ :: _, [] => false
  | a :: as, b :: bs =>
    if a < b then true
    else if a = b then lexLe as bs
    else false

/-- Python string comparison `a <= b`: lexicographic on code points. -/
def pyStrLe (a b : String) : Bool := lexLe a.data b.data

/-- Model of Python `list.sort()` on strings: a stable sort into ascending
lexicographic (code-point) order. -/
def pySort (xs : List String) : List String :=
  List.insertionSort (fun a b => pyStrLe a b = true) xs

/-- Core of `App.get_sorted_files`, over the enumerated children: partition
into directories and non-directories, sort each group, concatenate with the
directories first. -/
def get_sorted_files_of (children : List (String × Node)) : List String :=
  let dirs := (children.filter (fun c => decide (c.2 = Node.dir))).map (fun c => c.1)
  let files := (children.filter (fun c => !decide (c.2 = Node.dir))).map (fun c => c.1)
  pySort dirs ++ pySort files

/-- Model of `App.get_sorted_files`: the sorted entry list of `current_dir`. -/
def get_sorted_files (fs : FS) (current_dir : FsPath) : List String :=
  get_sorted_files_of (childrenOf fs current_dir)

/-- Model of Python list indexing `xs[i]`: a negative index counts from the
end; `none` models an `IndexError`. -/
def pyIndex {α : Type} (xs : List α) (i : Int) : Option α :=
  let j := if i < 0 then (xs.length : Int) + i else i
  if j < 0 then none else xs.get? j.toNat

/-- The mutable browser state of `App`: `self.current_dir` and `self.cursor`
(a Python `int`, hence modelled as `Int`). -/
structure AppState where
  current_dir : FsPath
  cursor : Int
deriving DecidableEq

/-- Curses/ASCII key codes used by `process_key_press`. The exact numbers are
immaterial; the dispatch only tests them for equality, and they are distinct. -/
def KEY_UP : Int := 259
/-- Curses code for the down-arrow key. -/
def KEY_DOWN : Int := 258
/-- Curses code for the left-arrow key. -/
def KEY_LEFT : Int := 260
/-- Curses code for the right-arrow key. -/
def KEY_RIGHT : Int := 261
/-- Curses code for the keypad upper-middle key (`KEY_A2`). -/
def KEY_A2 : Int := 566
/-- Curses code for the keypad left-middle key (`KEY_B1`). -/
def KEY_B1 : Int := 568
/-- Curses code for the keypad right-middle key (`KEY_B3`). -/
def KEY_B3 : Int := 570
/-- Curses code for the keypad lower-middle key (`KEY_C2`). -/
def KEY_C2 : Int := 572
/-- Curses code for function key F7 (the create-directory binding). -/
def KEY_F7 : Int := 271
/-- Code of `ord("k")`. -/
def ord_k : Int := 107
/-- Code of `ord("j")`. -/
def ord_j : Int := 106
/-- Code of `ord("h")`. -/
def ord_h : Int := 104
/-- Code of `ord("l")`. -/
def ord_l : Int := 108
/-- Code of `ord("x")`. -/
def ord_x : Int := 120
/-- Code of `ord("a")`. -/
def ord_a : Int := 97
/-- Code of `ord("q")`, handled by `run` (quit) before `process_key_press`. -/
def ord_q : Int := 113

/-- The OS-level errors the modelled filesystem calls can raise; all are
subclasses of `Exception`, so `except Exception` catches each of them. -/
inductive OSErr where
  | fileNotFoundError : OSErr
  | isADirectoryError : OSErr
  | notADirectoryError : OSErr
  | fileExistsError : OSErr
  | directoryNotEmptyError : OSErr
deriving DecidableEq

/-- Model of `os.remove(path)` on POSIX: `IsADirectoryError` on a directory,
`FileNotFoundError` on a missing path, otherwise the file is unlinked. -/
def os_remove (fs : FS) (p : FsPath) : Except OSErr FS :=
  match findNode fs p with
  | none => Except.error OSErr.fileNotFoundError
  | some Node.dir => Except.error OSErr.isADirectoryError
  | some (Node.file _) => Except.ok (fs.filter (fun e => !decide (e.1 = p)))

/-- Re-root one path: a path under `src` moves under `dst`, others stay. -/
def replaceRoot (src dst p : FsPath) : FsPath :=
  if src.isPrefixOf p then dst ++ p.drop src.length else p

/-- Move the whole subtree rooted at `src` to `dst`. -/
def moveSubtree (fs : FS) (src dst : FsPath) : FS :=
  fs.map (fun e => (replaceRoot src dst e.1, e.2))

/-- Model of `os.rename(src, dst)` on POSIX: renaming a path onto itself is a
no-op; a missing source fails; onto an existing file, a file replaces it and a
directory fails with `NotADirectoryError`; onto an existing directory, a file
fails with `IsADirectoryError` and a directory replaces it only when it is
empty (`OSError` / `ENOTEMPTY` otherwise). -/
def os_rename (fs : FS) (src dst : FsPath) : Except OSErr FS :=
  if src = dst then
    match findNode fs src with
    | none => Except.error OSErr.fileNotFoundError
    | some _ => Except.ok fs
  else
    match findNode fs src with
    | none => Except.error OSErr.fileNotFoundError
    | some srcNode =>
      match findNode fs dst with
      | none => Except.ok (moveSubtree fs src dst)
      | some dstNode =>
        match srcNode, dstNode with
        | Node.file _, Node.file _ =>
            Except.ok (moveSubtree (fs.filter (fun e => !decide (e.1 = dst))) src dst)
        | Node.file _, Node.dir => Except.error OSErr.isADirectoryError
        | Node.dir, Node.file _ => Except.error OSErr.notADirectoryError
        | Node.dir, Node.dir =>
            if childrenOf fs dst = [] then
              Except.ok (moveSubtree (fs.filter (fun e => !decide (e.1 = dst))) src dst)
            else Except.error OSErr.directoryNotEmptyError

/-- Model of `os.mkdir(path)`: `FileExistsError` if the path exists,
`FileNotFoundError` if the parent does not exist, `NotADirectoryError` if the
parent is not a directory; otherwise the new directory is created. -/
def os_mkdir (fs : FS) (p : FsPath) : Except OSErr FS :=
  match findNode fs p with
  | some _ => Except.error OSErr.fileExistsError
  | none =>
    match findNode fs (parent p) with
    | some Node.dir => Except.ok (fs ++ [(p, Node.dir)])
    | some (Node.file _) => Except.error OSErr.notADirectoryError
    | none => Except.error OSErr.fileNotFoundError

/-- Model of `App._try_enter_directory`: the whole body sits inside
`try/except: pass`, so an `IndexError` from `files[self.cursor]` is swallowed;
the state changes only when the selected path is a directory. -/
def try_enter_directory (fs : FS) (st : AppState) (files : List String) : AppState :=
  match pyIndex files st.cursor with
  | none => st
  | some name =>
    let new_path := st.current_dir ++ [name]
    if is_dir fs new_path then AppState.mk new_path 0 else st

/-- Model of `App._try_remove_file`: `os.remove` on the selected path, every
exception (including the `IndexError` of `files[self.cursor]`) swallowed.
The browser state is not touched, so only the filesystem is returned. -/
def try_remove_file (fs : FS) (st : AppState) (files : List String) : FS :=
  match pyIndex files st.cursor with
  | none => fs
  | some name =>
    match os_remove fs (st.current_dir ++ [name]) with
    | Except.ok fs2 => fs2
    | Except.error _ => fs

/-- Model of `App._try_rename_file`: `os.rename` of the selected path to
`current_dir / new_name`, every exception swallowed; `new_name` stands for the
line returned by `_ask_user_input`. The browser state is not touched. -/
def try_rename_file (fs : FS) (st : AppState) (files : List String)
    (new_name : String) : FS :=
  match pyIndex files st.cursor with
  | none => fs
  | some name =>
    match os_rename fs (st.current_dir ++ [name]) (st.current_dir ++ [new_name]) with
    | Except.ok fs2 => fs2
    | Except.error _ => fs

/-- Model of `App._try_create_directory`: `os.mkdir` of
`current_dir / new_dir`, every exception swallowed. -/
def try_create_directory (fs : FS) (st : AppState) (new_dir : String) : FS :=
  match os_mkdir fs (st.current_dir ++ [new_dir]) with
  | Except.ok fs2 => fs2
  | Except.error _ => fs

/-- Model of `App.process_key_press`: one key dispatch over the entry list
computed for the current cycle. Returns the filesystem (possibly mutated by
delete/rename/mkdir) and the browser state; `user_input` stands for the line
read by `_ask_user_input` in the rename and mkdir branches. -/
def process_key_press (fs : FS) (st : AppState) (files : List String)
    (key : Int) (user_input : String) : FS × AppState :=
  if (key = KEY_UP ∨ key = ord_k ∨ key = KEY_A2) ∧ st.cursor > 0 then
    (fs, AppState.mk st.current_dir (st.cursor - 1))
  else if (key = KEY_DOWN ∨ key = ord_j ∨ key = KEY_C2) ∧
      st.cursor < (files.length : Int) - 1 then
    (fs, AppState.mk st.current_dir (st.cursor + 1))
  else if key = KEY_LEFT ∨ key = KEY_B1 ∨ key = ord_h then
    (fs, AppState.mk (parent st.current_dir) 0)
  else if key = KEY_RIGHT ∨ key = KEY_B3 ∨ key = ord_l then
    (fs, try_enter_directory fs st files)
  else if key = ord_x then
    (try_remove_file fs st files, st)
  else if key = ord_a then
    (try_rename_file fs st files user_input, st)
  else if key = KEY_F7 then
    (try_create_directory fs st user_input, st)
  else
    (fs, st)

/-- Model of `App._get_file_or_folder_contents`: a file's contents split on
newlines; a directory's comma-joined `os.listdir`; otherwise one diagnostic
line from the `except Exception` branch. -/
def get_file_or_folder_contents (fs : FS) (current_dir : FsPath)
    (item : String) : List String :=
  match findNode fs (current_dir ++ [item]) with
  | some (Node.file c) => c.splitOn "\n"
  | some Node.dir =>
      (String.intercalate ", "
        ((childrenOf fs (current_dir ++ [item])).map (fun c => c.1))).splitOn "\n"
  | none =>
      ("Unable to open the file or directory: error message" ).splitOn "\n"

/-- Model of `App._show_selected_file_or_folder_contents`: the line
`item = files[self.cursor]` runs with no surrounding try/except, so `none`
models an uncaught `IndexError` that aborts the render cycle (and the whole
`curses.wrapper` loop); `some` carries the preview lines handed to
`_draw_right`. -/
def show_selected_file_or_folder_contents (fs : FS) (st : AppState)
    (files : List String) : Option (List String) :=
  (pyIndex files st.cursor).map
    (fun item => get_file_or_folder_contents fs st.current_dir item)

/-- Model of `self.col_width = self.screen_width // 2`. -/
def col_width (screen_width : Nat) : Nat := screen_width / 2

/-- Model of the Python string slice `s[:stop]` for an arbitrary integer
`stop`: a negative stop counts from the end of the string, and the result is
always a well-defined initial segment — Python slicing never raises and never
yields a negative-length or past-the-end range. -/
def pySliceTo (s : List Char) (stop : Int) : List Char :=
  let j := if stop < 0 then (s.length : Int) + stop else stop
  s.take j.toNat

/-- Model of `contents.replace("\t", "    ")` in `_draw_right`. -/
def expandTabs (s : List Char) : List Char :=
  s.flatMap (fun c => if c = '\t' then [' ', ' ', ' ', ' '] else [c])

/-- Model of `App._draw_right`: the preview text written at row `i + 2`, or
`none` when the guard `0 <= i + 2 < screen_height` skips the write
(`i ≥ 0` holds by construction of `enumerate`). -/
def draw_right (screen_height screen_width : Nat) (contents : List Char)
    (i : Nat) : Option (List Char) :=
  let c := expandTabs contents
  if i + 2 < screen_height then
    some (pySliceTo c ((col_width screen_width : Int) - 2))
  else none

/-- Model of `App._draw_left`: the entry text written at row `ypos + 2`, or
`none` when the guard `ypos + 2 < screen_height` skips the write. -/
def draw_left (screen_height screen_width : Nat) (text : List Char)
    (ypos : Nat) : Option (List Char) :=
  if ypos + 2 < screen_height then
    some (pySliceTo text ((col_width screen_width : Int) - 1))
  else none

/-- Model of `App._draw_current_directory`: the path header truncated to
`col_width` characters. -/
def draw_current_directory (screen_width : Nat) (path_text : List Char) :
    List Char :=
  pySliceTo path_text (col_width screen_width : Int)

/-! ### Helper lemmas -/

theorem lexLe_total (a b : List Char) : lexLe a b = true ∨ lexLe b a = true := by
  induction a generalizing b with
  | nil => left; rfl
  | cons x xs ih =>
    cases b with
    | nil => right; rfl
    | cons y ys =>
      by_cases hxy : x < y
      · left; simp [lexLe, hxy]
      · by_cases heq : x = y
        · subst heq
          rcases ih ys with h | h
          · left; simp [lexLe, hxy, h]
          · right; simp [lexLe, hxy, h]
        · have hyx : y < x := by
            rcases lt_trichotomy x y with h | h | h
            · exact absurd h hxy
            · exact absurd h heq
            · exact h
          right; simp [lexLe, hyx]

theorem lexLe_trans (a b c : List Char) (h1 : lexLe a b = true)
    (h2 : lexLe b c = true) : lexLe a c = true := by
  induction a generalizing b c with
  | nil => rfl
  | cons x xs ih =>
    cases b with
    | nil => simp [lexLe] at h1
    | cons y ys =>
      cases c with
      | nil => simp [lexLe] at h2
      | cons z zs =>
        simp only [lexLe] at h1 h2 ⊢
        by_cases hxy : x < y
        · by_cases hyz : y < z
          · simp [lt_trans hxy hyz]
          · by_cases hyzeq : y = z
            · subst hyzeq; simp [hxy]
            · simp [hyz, hyzeq] at h2
        · by_cases hxyeq : x = y
          · subst hxyeq
            by_cases hyz : x < z
            · simp [hyz]
            · by_cases hyzeq : x = z
              · subst hyzeq
                simp [hxy] at h1 h2
                simp [lt_irrefl, ih ys zs h1 h2]
              · simp [hyz, hyzeq] at h2
          · simp [hxy, hxyeq] at h1

instance : IsTotal String (fun a b => pyStrLe a b = true) :=
  ⟨fun a b => lexLe_total a.data b.data⟩

instance : IsTrans String (fun a b => pyStrLe a b = true) :=
  ⟨fun a b c => lexLe_trans a.data b.data c.data⟩

theorem pySort_sorted (xs : List String) :
    List.Sorted (fun a b => pyStrLe a b = true) (pySort xs) :=
  List.sorted_insertionSort _ xs

theorem pySort_perm (xs : List String) : (pySort xs).Perm xs :=
  List.perm_insertionSort _ xs

theorem process_key_press_up (fs : FS) (st : AppState) (files : List String)
    (key : Int) (inp : String) (hk : key = KEY_UP ∨ key = ord_k ∨ key = KEY_A2)
    (hc : 0 < st.cursor) :
    process_key_press fs st files key inp =
      (fs, AppState.mk st.current_dir (st.cursor - 1)) := by
  rcases hk with rfl | rfl | rfl <;>
    (unfold process_key_press; rw [if_pos ⟨by decide, hc⟩])

theorem process_key_press_up_stuck (fs : FS) (st : AppState)
    (files : List String) (key : Int) (inp : String)
    (hk : key = KEY_UP ∨ key = ord_k ∨ key = KEY_A2)
    (hc : ¬ 0 < st.cursor) :
    process_key_press fs st files key inp = (fs, st) := by
  rcases hk with rfl | rfl | rfl <;>
    (unfold process_key_press
     rw [if_neg (fun h => hc h.2), if_neg (fun h => absurd h.1 (by decide)),
       if_neg (by decide), if_neg (by decide), if_neg (by decide),
       if_neg (by decide), if_neg (by decide)])

theorem process_key_press_down (fs : FS) (st : AppState) (files : List String)
    (key : Int) (inp : String) (hk : key = KEY_DOWN ∨ key = ord_j ∨ key = KEY_C2)
    (hc : st.cursor < (files.length : Int) - 1) :
    process_key_press fs st files key inp =
      (fs, AppState.mk st.current_dir (st.cursor + 1)) := by
  rcases hk with rfl | rfl | rfl <;>
    (unfold process_key_press
     rw [if_neg (fun h => absurd h.1 (by decide)), if_pos ⟨by decide, hc⟩])

theorem process_key_press_down_stuck (fs : FS) (st : AppState)
    (files : List String) (key : Int) (inp : String)
    (hk : key = KEY_DOWN ∨ key = ord_j ∨ key = KEY_C2)
    (hc : ¬ st.cursor < (files.length : Int) - 1) :
    process_key_press fs st files key inp = (fs, st) := by
  rcases hk with rfl | rfl | rfl <;>
    (unfold process_key_press
     rw [if_neg (fun h => absurd h.1 (by decide)), if_neg (fun h => hc h.2),
       if_neg (by decide), if_neg (by decide), if_neg (by decide),
       if_neg (by decide), if_neg (by decide)])

theorem process_key_press_left (fs : FS) (st : AppState) (files : List String)
    (key : Int) (inp : String)
    (hk : key = KEY_LEFT ∨ key = KEY_B1 ∨ key = ord_h) :
    process_key_press fs st files key inp =
      (fs, AppState.mk (parent st.current_dir) 0) := by
  rcases hk with rfl | rfl | rfl <;>
    (unfold process_key_press
     rw [if_neg (fun h => absurd h.1 (by decide)),
       if_neg (fun h => absurd h.1 (by decide)), if_pos (by decide)])

theorem process_key_press_right (fs : FS) (st : AppState) (files : List String)
    (key : Int) (inp : String)
    (hk : key = KEY_RIGHT ∨ key = KEY_B3 ∨ key = ord_l) :
    process_key_press fs st files key inp =
      (fs, try_enter_directory fs st files) := by
  rcases hk with rfl | rfl | rfl <;>
    (unfold process_key_press
     rw [if_neg (fun h => absurd h.1 (by decide)),
       if_neg (fun h => absurd h.1 (by decide)), if_neg (by decide),
       if_pos (by decide)])

theorem process_key_press_x (fs : FS) (st : AppState) (files : List String)
    (inp : String) :
    process_key_press fs st files ord_x inp =
      (try_remove_file fs st files, st) := by
  unfold process_key_press
  rw [if_neg (fun h => absurd h.1 (by decide)),
    if_neg (fun h => absurd h.1 (by decide)), if_neg (by decide),
    if_neg (by decide), if_pos (by decide)]

theorem process_key_press_a (fs : FS) (st : AppState) (files : List String)
    (inp : String) :
    process_key_press fs st files ord_a inp =
      (try_rename_file fs st files inp, st) := by
  unfold process_key_press
  rw [if_neg (fun h => absurd h.1 (by decide)),
    if_neg (fun h => absurd h.1 (by decide)), if_neg (by decide),
    if_neg (by decide), if_neg (by decide), if_pos (by decide)]

theorem process_key_press_f7 (fs : FS) (st : AppState) (files : List String)
    (inp : String) :
    process_key_press fs st files KEY_F7 inp =
      (try_create_directory fs st inp, st) := by
  unfold process_key_press
  rw [if_neg (fun h => absurd h.1 (by decide)),
    if_neg (fun h => absurd h.1 (by decide)), if_neg (by decide),
    if_neg (by decide), if_neg (by decide), if_neg (by decide),
    if_pos (by decide)]

/-! ### Claim C1 -/

/-- The key codes of the move-up and move-down bindings. -/
def move_keys : List Int := [KEY_UP, ord_k, KEY_A2, KEY_DOWN, ord_j, KEY_C2]

/-- A sequence of key presses dispatched through `process_key_press`, with the
entry list of the cycle held fixed (move events do not change the directory or
the filesystem, so `run` recomputes the same list each cycle). -/
def run_keys (files : List String) (inp : String) (keys : List Int)
    (p : FS × AppState) : FS × AppState :=
  keys.foldl (fun q k => process_key_press q.1 q.2 files k inp) p

theorem move_key_step (fs : FS) (st : AppState) (files : List String)
    (key : Int) (inp : String) (hk : key ∈ move_keys)
    (h0 : 0 ≤ st.cursor) (h1 : st.cursor < (files.length : Int)) :
    (process_key_press fs st files key inp).1 = fs ∧
    (process_key_press fs st files key inp).2.current_dir = st.current_dir ∧
    0 ≤ (process_key_press fs st files key inp).2.cursor ∧
    (process_key_press fs st files key inp).2.cursor < (files.length : Int) := by
  have hud : (key = KEY_UP ∨ key = ord_k ∨ key = KEY_A2) ∨
      (key = KEY_DOWN ∨ key = ord_j ∨ key = KEY_C2) := by
    simp only [move_keys, List.mem_cons, List.not_mem_nil, or_false] at hk
    tauto
  rcases hud with hup | hdn
  · by_cases hc : 0 < st.cursor
    · rw [process_key_press_up fs st files key inp hup hc]
      exact ⟨rfl, rfl, show 0 ≤ st.cursor - 1 by omega,
        show st.cursor - 1 < (files.length : Int) by omega⟩
    · rw [process_key_press_up_stuck fs st files key inp hup hc]
      exact ⟨rfl, rfl, h0, h1⟩
  · by_cases hc : st.cursor < (files.length : Int) - 1
    · rw [process_key_press_down fs st files key inp hdn hc]
      exact ⟨rfl, rfl, show 0 ≤ st.cursor + 1 by omega,
        show st.cursor + 1 < (files.length : Int) by omega⟩
    · rw [process_key_press_down_stuck fs st files key inp hdn hc]
      exact ⟨rfl, rfl, h0, h1⟩

/-- C1: for every entry list and every initial cursor with
`0 <= cursor < len(entries)`, after any sequence of move-up and move-down key
events processed by `process_key_press` the cursor still satisfies
`0 <= cursor < len(entries)` (move up only fires when `cursor > 0`, move down
only when `cursor < len(entries) - 1`; neither changes the directory or the
filesystem). -/
theorem cursor_bounds_preserved_by_moves (files : List String) (inp : String)
    (keys : List Int) (p : FS × AppState)
    (hkeys : ∀ k ∈ keys, k ∈ move_keys)
    (h0 : 0 ≤ p.2.cursor) (h1 : p.2.cursor < (files.length : Int)) :
    0 ≤ (run_keys files inp keys p).2.cursor ∧
    (run_keys files inp keys p).2.cursor < (files.length : Int) := by
  induction keys generalizing p h0 h1 with
  | nil => exact ⟨h0, h1⟩
  | cons k ks ih =>
    have hs := move_key_step p.1 p.2 files k inp
      (hkeys k (List.mem_cons_self k ks)) h0 h1
    exact ih (process_key_press p.1 p.2 files k inp)
      (fun k2 hk2 => hkeys k2 (List.mem_cons_of_mem _ hk2)) hs.2.2.1 hs.2.2.2

/-- Witness for C1 at a concrete entry list, cursor and key sequence. -/
theorem cursor_bounds_preserved_by_moves_witness :
    (∀ k ∈ [KEY_DOWN, ord_j, KEY_UP, ord_k, KEY_A2, KEY_C2], k ∈ move_keys) ∧
    0 ≤ (AppState.mk [] 0).cursor ∧
    (AppState.mk [] 0).cursor < (((["a", "b"] : List String).length : Nat) : Int) ∧
    (0 ≤ (run_keys ["a", "b"] "" [KEY_DOWN, ord_j, KEY_UP, ord_k, KEY_A2, KEY_C2]
        ([], AppState.mk [] 0)).2.cursor ∧
     (run_keys ["a", "b"] "" [KEY_DOWN, ord_j, KEY_UP, ord_k, KEY_A2, KEY_C2]
        ([], AppState.mk [] 0)).2.cursor <
       (((["a", "b"] : List String).length : Nat) : Int)) :=
  ⟨by decide, by decide, by decide,
    cursor_bounds_preserved_by_moves ["a", "b"] ""
      [KEY_DOWN, ord_j, KEY_UP, ord_k, KEY_A2, KEY_C2] ([], AppState.mk [] 0)
      (by decide) (by decide) (by decide)⟩

/-! ### Claim C2 -/

/-- A filesystem in which the current directory (the root) has no children. -/
def fs_empty_root : FS := [([], Node.dir)]

/-- C2 is a code bug: with zero children the entry list is `[]` and move
up/down are indeed no-ops, but the render cycle does not skip the selection
drawing — `_show_selected_file_or_folder_contents` evaluates
`files[self.cursor]` unguarded, so the cycle raises an uncaught `IndexError`
(modelled by `none`) instead of skipping without error. -/
theorem empty_entries_selection_errors_and_moves_noop :
    get_sorted_files fs_empty_root [] = [] ∧
    show_selected_file_or_folder_contents fs_empty_root (AppState.mk [] 0) [] =
      none ∧
    process_key_press fs_empty_root (AppState.mk [] 0) [] KEY_UP "" =
      (fs_empty_root, AppState.mk [] 0) ∧
    process_key_press fs_empty_root (AppState.mk [] 0) [] ord_k "" =
      (fs_empty_root, AppState.mk [] 0) ∧
    process_key_press fs_empty_root (AppState.mk [] 0) [] KEY_A2 "" =
      (fs_empty_root, AppState.mk [] 0) ∧
    process_key_press fs_empty_root (AppState.mk [] 0) [] KEY_DOWN "" =
      (fs_empty_root, AppState.mk [] 0) ∧
    process_key_press fs_empty_root (AppState.mk [] 0) [] ord_j "" =
      (fs_empty_root, AppState.mk [] 0) ∧
    process_key_press fs_empty_root (AppState.mk [] 0) [] KEY_C2 "" =
      (fs_empty_root, AppState.mk [] 0) := by decide

/-! ### Claim C3 -/

/-- The sort specification of the entry listing: the result is a permutation
of the child names, has the same length, has no duplicates, and is the sorted
directory names followed by the sorted non-directory names, each group in
ascending lexicographic (code-point) order. -/
def sortedListingSpec (fs : FS) (d : FsPath) : Prop :=
  (get_sorted_files fs d).Perm ((childrenOf fs d).map (fun c => c.1)) ∧
  (get_sorted_files fs d).length = (childrenOf fs d).length ∧
  (get_sorted_files fs d).Nodup ∧
  get_sorted_files fs d =
    pySort (((childrenOf fs d).filter (fun c => decide (c.2 = Node.dir))).map
      (fun c => c.1)) ++
    pySort (((childrenOf fs d).filter (fun c => !decide (c.2 = Node.dir))).map
      (fun c => c.1)) ∧
  List.Sorted (fun a b => pyStrLe a b = true)
    (pySort (((childrenOf fs d).filter (fun c => decide (c.2 = Node.dir))).map
      (fun c => c.1))) ∧
  List.Sorted (fun a b => pyStrLe a b = true)
    (pySort (((childrenOf fs d).filter (fun c => !decide (c.2 = Node.dir))).map
      (fun c => c.1))) ∧
  (pySort (((childrenOf fs d).filter (fun c => decide (c.2 = Node.dir))).map
      (fun c => c.1))).Perm
    (((childrenOf fs d).filter (fun c => decide (c.2 = Node.dir))).map
      (fun c => c.1)) ∧
  (pySort (((childrenOf fs d).filter (fun c => !decide (c.2 = Node.dir))).map
      (fun c => c.1))).Perm
    (((childrenOf fs d).filter (fun c => !decide (c.2 = Node.dir))).map
      (fun c => c.1))

/-- C3: for any set of child names of the current directory,
`get_sorted_files` returns all directory names sorted lexicographically
followed by all non-directory names sorted lexicographically, its length is
the number of children, and it has no duplicates. -/
theorem get_sorted_files_spec (fs : FS) (d : FsPath)
    (hnd : ((childrenOf fs d).map (fun c => c.1)).Nodup) :
    sortedListingSpec fs d := by
  have hsplit : (((childrenOf fs d).filter
        (fun c => decide (c.2 = Node.dir))).map (fun c => c.1) ++
      ((childrenOf fs d).filter (fun c => !decide (c.2 = Node.dir))).map
        (fun c => c.1)).Perm ((childrenOf fs d).map (fun c => c.1)) := by
    rw [← List.map_append]
    exact (List.filter_append_perm _ (childrenOf fs d)).map _
  have hperm : (get_sorted_files fs d).Perm
      ((childrenOf fs d).map (fun c => c.1)) := by
    refine List.Perm.trans ?_ hsplit
    exact List.Perm.append (pySort_perm _) (pySort_perm _)
  refine ⟨hperm, ?_, hperm.symm.nodup hnd, rfl, pySort_sorted _, pySort_sorted _,
    pySort_perm _, pySort_perm _⟩
  rw [hperm.length_eq, List.length_map]

/-- Witness for C3 on a concrete directory with four children. -/
theorem get_sorted_files_spec_witness :
    ((childrenOf [([], Node.dir), (["b"], Node.file ""), (["a"], Node.file ""),
        (["d2"], Node.dir), (["d1"], Node.dir)] []).map (fun c => c.1)).Nodup ∧
    sortedListingSpec [([], Node.dir), (["b"], Node.file ""),
      (["a"], Node.file ""), (["d2"], Node.dir), (["d1"], Node.dir)] [] :=
  ⟨by decide,
    get_sorted_files_spec [([], Node.dir), (["b"], Node.file ""),
      (["a"], Node.file ""), (["d2"], Node.dir), (["d1"], Node.dir)] []
      (by decide)⟩

/-! ### Claim C4 -/

/-- Root directory with three plain files `a`, `b`, `c`. -/
def fs_abc : FS :=
  [([], Node.dir), (["a"], Node.file ""), (["b"], Node.file ""),
    (["c"], Node.file "")]

/-- `fs_abc` after `c` has been deleted. -/
def fs_ab : FS :=
  [([], Node.dir), (["a"], Node.file ""), (["b"], Node.file "")]

/-- C4 is a code bug: with entries `["a","b","c"]` and cursor 2, deleting `c`
succeeds but neither `_try_remove_file` nor `run` clamps the cursor, so the
next cycle runs with cursor 2 against the length-2 list `["a","b"]` —
`cursor` is not `min(cursor, len(entries)-1) = 1`, it is out of bounds, and
the selection lookup of the next cycle raises an uncaught `IndexError`
(modelled by `none`). -/
theorem delete_leaves_cursor_unclamped :
    get_sorted_files fs_abc [] = ["a", "b", "c"] ∧
    process_key_press fs_abc (AppState.mk [] 2) ["a", "b", "c"] ord_x "" =
      (fs_ab, AppState.mk [] 2) ∧
    get_sorted_files fs_ab [] = ["a", "b"] ∧
    (process_key_press fs_abc (AppState.mk [] 2) ["a", "b", "c"] ord_x
        "").2.cursor ≠
      min (AppState.mk [] 2).cursor
        (((get_sorted_files fs_ab []).length : Int) - 1) ∧
    ¬ ((AppState.mk [] 2).cursor <
        ((get_sorted_files fs_ab []).length : Int)) ∧
    show_selected_file_or_folder_contents fs_ab (AppState.mk [] 2)
      (get_sorted_files fs_ab []) = none := by decide

/-! ### Claim C5 -/

/-- Every Python slice `s[:stop]` in the renderer is an initial segment of
`s`: there is a take-length `k` with the result equal to `s.take k`. -/
theorem pySliceTo_take (s : List Char) (stop : Int) :
    ∃ k, pySliceTo s stop = s.take k :=
  ⟨_, rfl⟩

/-- The result of a Python slice `s[:stop]` never extends beyond the end of
`s`. -/
theorem pySliceTo_length_le (s : List Char) (stop : Int) :
    (pySliceTo s stop).length ≤ s.length := by
  unfold pySliceTo
  rw [List.length_take]
  exact Nat.min_le_right _ _

/-- Counterexample to C5 as stated: the truncation widths are not clamped to
be nonnegative. At terminal width 2 the preview width `col_width - 2` is `-1`
(and at width 0 the left-pane width `col_width - 1` is `-1`), and the negative
slice bound makes Python drop trailing characters instead of truncating to an
empty string: `"ab"[:-1]` is `"a"`. -/
theorem truncation_widths_not_clamped :
    (col_width 2 : Int) - 2 < 0 ∧
    (col_width 0 : Int) - 1 < 0 ∧
    draw_right 10 2 ['a', 'b'] 0 = some ['a'] ∧
    draw_left 10 0 ['a', 'b'] 0 = some ['a'] := by decide

/-- C5 amended: rendering never requests a substring slice of negative length
or one extending beyond the string's end — not because the widths are clamped
(they are not, see the counterexample), but because Python slice semantics
interpret a negative stop relative to the string's end and clamp internally.
Every drawn string is an initial segment of the string being truncated, with
length at most that string's length. -/
theorem render_truncation_safe (screen_height screen_width ypos i : Nat)
    (text contents pathText : List Char) :
    (∃ k, draw_current_directory screen_width pathText = pathText.take k ∧
      (draw_current_directory screen_width pathText).length ≤
        pathText.length) ∧
    (∀ r, draw_left screen_height screen_width text ypos = some r →
      ∃ k, r = text.take k ∧ r.length ≤ text.length) ∧
    (∀ r, draw_right screen_height screen_width contents i = some r →
      ∃ k, r = (expandTabs contents).take k ∧
        r.length ≤ (expandTabs contents).length) := by
  refine ⟨⟨_, rfl, pySliceTo_length_le _ _⟩, ?_, ?_⟩
  · intro r hr
    unfold draw_left at hr
    split at hr
    · cases hr
      exact ⟨_, rfl, pySliceTo_length_le _ _⟩
    · cases hr
  · intro r hr
    unfold draw_right at hr
    split at hr
    · cases hr
      exact ⟨_, rfl, pySliceTo_length_le _ _⟩
    · cases hr

/-- Witness for the amended C5 at width 7: the left pane truncates
`['a','b','c']` to the initial segment `['a','b']`. -/
theorem render_truncation_safe_witness :
    ∃ k, (['a', 'b'] : List Char) = (['a', 'b', 'c'] : List Char).take k ∧
      (['a', 'b'] : List Char).length ≤ (['a', 'b', 'c'] : List Char).length :=
  (render_truncation_safe 10 7 0 0 ['a', 'b', 'c'] [] []).2.1 ['a', 'b']
    (by decide)

/-! ### Claim C6 -/

/-- C6: when the selected entry is a directory, "enter selected" moves into it
with cursor 0, and a following "go to parent" returns `current_dir` to its
original value with cursor 0 (whatever the original cursor was), leaving the
filesystem untouched. -/
theorem enter_then_parent_round_trip (fs : FS) (st : AppState)
    (files files2 : List String) (inp1 inp2 : String) (name : String)
    (hsel : pyIndex files st.cursor = some name)
    (hdir : is_dir fs (st.current_dir ++ [name]) = true) :
    (process_key_press fs st files KEY_RIGHT inp1).1 = fs ∧
    (process_key_press fs st files KEY_RIGHT inp1).2 =
      AppState.mk (st.current_dir ++ [name]) 0 ∧
    process_key_press fs (AppState.mk (st.current_dir ++ [name]) 0) files2
        KEY_LEFT inp2 =
      (fs, AppState.mk st.current_dir 0) := by
  have h1 : try_enter_directory fs st files =
      AppState.mk (st.current_dir ++ [name]) 0 := by
    simp [try_enter_directory, hsel, hdir]
  refine ⟨?_, ?_, ?_⟩
  · rw [process_key_press_right fs st files KEY_RIGHT inp1 (Or.inl rfl)]
  · rw [process_key_press_right fs st files KEY_RIGHT inp1 (Or.inl rfl)]
    exact h1
  · rw [process_key_press_left fs _ files2 KEY_LEFT inp2 (Or.inl rfl)]
    simp [parent, List.dropLast_concat]

/-- Witness for C6: entering directory `d` from `/u` and going back. -/
theorem enter_then_parent_round_trip_witness :
    pyIndex ["d"] (AppState.mk ["u"] 0).cursor = some "d" ∧
    is_dir [([], Node.dir), (["u"], Node.dir), (["u", "d"], Node.dir)]
      ((AppState.mk ["u"] 0).current_dir ++ ["d"]) = true ∧
    ((process_key_press [([], Node.dir), (["u"], Node.dir),
        (["u", "d"], Node.dir)] (AppState.mk ["u"] 0) ["d"] KEY_RIGHT "").1 =
      [([], Node.dir), (["u"], Node.dir), (["u", "d"], Node.dir)] ∧
    (process_key_press [([], Node.dir), (["u"], Node.dir),
        (["u", "d"], Node.dir)] (AppState.mk ["u"] 0) ["d"] KEY_RIGHT "").2 =
      AppState.mk ((AppState.mk ["u"] 0).current_dir ++ ["d"]) 0 ∧
    process_key_press [([], Node.dir), (["u"], Node.dir),
        (["u", "d"], Node.dir)]
        (AppState.mk ((AppState.mk ["u"] 0).current_dir ++ ["d"]) 0) []
        KEY_LEFT "" =
      ([([], Node.dir), (["u"], Node.dir), (["u", "d"], Node.dir)],
        AppState.mk (AppState.mk ["u"] 0).current_dir 0)) :=
  ⟨by decide, by decide,
    enter_then_parent_round_trip
      [([], Node.dir), (["u"], Node.dir), (["u", "d"], Node.dir)]
      (AppState.mk ["u"] 0) ["d"] [] "" "" "d" (by decide) (by decide)⟩

/-! ### Claim C7 -/

/-- C7: a "go to parent" key event when `current_dir` is the root leaves
`current_dir` unchanged (the parent of the root is itself) without error,
repeating it from the root is idempotent, and every "go to parent" resets the
cursor to 0. -/
theorem parent_of_root_identity (fs : FS) (files files2 : List String)
    (inp1 inp2 : String) (st : AppState) (key : Int)
    (hk : key = KEY_LEFT ∨ key = KEY_B1 ∨ key = ord_h)
    (hroot : st.current_dir = []) :
    process_key_press fs st files key inp1 = (fs, AppState.mk [] 0) ∧
    process_key_press fs (AppState.mk [] 0) files2 key inp2 =
      (fs, AppState.mk [] 0) ∧
    (∀ st2 : AppState,
      (process_key_press fs st2 files key inp1).2.cursor = 0) := by
  refine ⟨?_, ?_, ?_⟩
  · rw [process_key_press_left fs st files key inp1 hk, hroot]
    rfl
  · rw [process_key_press_left fs _ files2 key inp2 hk]
    rfl
  · intro st2
    rw [process_key_press_left fs st2 files key inp1 hk]

/-- Witness for C7: pressing `h` at the root with a nonzero cursor. -/
theorem parent_of_root_identity_witness :
    ((ord_h : Int) = KEY_LEFT ∨ (ord_h : Int) = KEY_B1 ∨
      (ord_h : Int) = ord_h) ∧
    (AppState.mk [] 5).current_dir = ([] : FsPath) ∧
    (process_key_press [([], Node.dir)] (AppState.mk [] 5) ["e"] ord_h "" =
      ([([], Node.dir)], AppState.mk [] 0) ∧
    process_key_press [([], Node.dir)] (AppState.mk [] 0) [] ord_h "" =
      ([([], Node.dir)], AppState.mk [] 0) ∧
    (∀ st2 : AppState,
      (process_key_press [([], Node.dir)] st2 ["e"] ord_h "").2.cursor = 0)) :=
  ⟨by decide, by decide,
    parent_of_root_identity [([], Node.dir)] ["e"] [] "" ""
      (AppState.mk [] 5) ord_h (by decide) (by decide)⟩

/-! ### Claim C8 -/

/-- C8: the delete, rename and mkdir handlers never change the browser state
(`current_dir`, `cursor`), and whenever the underlying filesystem call fails
the error is swallowed by the `try/except: pass` at the point of call — no
exception escapes (the handlers are total) and the filesystem is unchanged
too. -/
theorem mutation_failures_swallowed (fs : FS) (st : AppState)
    (files : List String) (inp : String) :
    (process_key_press fs st files ord_x inp).2 = st ∧
    (process_key_press fs st files ord_a inp).2 = st ∧
    (process_key_press fs st files KEY_F7 inp).2 = st ∧
    (∀ name e, pyIndex files st.cursor = some name →
      os_remove fs (st.current_dir ++ [name]) = Except.error e →
      (process_key_press fs st files ord_x inp).1 = fs) ∧
    (∀ name e, pyIndex files st.cursor = some name →
      os_rename fs (st.current_dir ++ [name]) (st.current_dir ++ [inp]) =
        Except.error e →
      (process_key_press fs st files ord_a inp).1 = fs) ∧
    (∀ e, os_mkdir fs (st.current_dir ++ [inp]) = Except.error e →
      (process_key_press fs st files KEY_F7 inp).1 = fs) := by
  refine ⟨?_, ?_, ?_, ?_, ?_, ?_⟩
  · rw [process_key_press_x]
  · rw [process_key_press_a]
  · rw [process_key_press_f7]
  · intro name e hsel herr
    rw [process_key_press_x]
    simp [try_remove_file, hsel, herr]
  · intro name e hsel herr
    rw [process_key_press_a]
    simp [try_rename_file, hsel, herr]
  · intro e herr
    rw [process_key_press_f7]
    simp [try_create_directory, herr]

/-- Root with file `a` and directory `b`; entry list is `["b", "a"]` and the
cursor selects the directory `b`. Renaming `b` onto the existing name `a`
fails, as do deleting `b` and creating directory `a`. -/
def fs_mut : FS := [([], Node.dir), (["a"], Node.file ""), (["b"], Node.dir)]

/-- Witness for C8: all three mutations fail on `fs_mut` and leave both the
state and the filesystem unchanged. -/
theorem mutation_failures_swallowed_witness :
    pyIndex ["b", "a"] (AppState.mk [] 0).cursor = some "b" ∧
    os_remove fs_mut ((AppState.mk [] 0).current_dir ++ ["b"]) =
      Except.error OSErr.isADirectoryError ∧
    os_rename fs_mut ((AppState.mk [] 0).current_dir ++ ["b"])
        ((AppState.mk [] 0).current_dir ++ ["a"]) =
      Except.error OSErr.notADirectoryError ∧
    os_mkdir fs_mut ((AppState.mk [] 0).current_dir ++ ["a"]) =
      Except.error OSErr.fileExistsError ∧
    (process_key_press fs_mut (AppState.mk [] 0) ["b", "a"] ord_x "a").2 =
      AppState.mk [] 0 ∧
    (process_key_press fs_mut (AppState.mk [] 0) ["b", "a"] ord_a "a").2 =
      AppState.mk [] 0 ∧
    (process_key_press fs_mut (AppState.mk [] 0) ["b", "a"] KEY_F7 "a").2 =
      AppState.mk [] 0 ∧
    (process_key_press fs_mut (AppState.mk [] 0) ["b", "a"] ord_x "a").1 =
      fs_mut ∧
    (process_key_press fs_mut (AppState.mk [] 0) ["b", "a"] ord_a "a").1 =
      fs_mut ∧
    (process_key_press fs_mut (AppState.mk [] 0) ["b", "a"] KEY_F7 "a").1 =
      fs_mut :=
  ⟨by decide, rfl, rfl, rfl,
    (mutation_failures_swallowed fs_mut (AppState.mk [] 0) ["b", "a"] "a").1,
    (mutation_failures_swallowed fs_mut (AppState.mk [] 0) ["b", "a"] "a").2.1,
    (mutation_failures_swallowed fs_mut (AppState.mk [] 0) ["b", "a"]
      "a").2.2.1,
    (mutation_failures_swallowed fs_mut (AppState.mk [] 0) ["b", "a"]
      "a").2.2.2.1 "b" OSErr.isADirectoryError (by decide) rfl,
    (mutation_failures_swallowed fs_mut (AppState.mk [] 0) ["b", "a"]
      "a").2.2.2.2.1 "b" OSErr.notADirectoryError (by decide) rfl,
    (mutation_failures_swallowed fs_mut (AppState.mk [] 0) ["b", "a"]
      "a").2.2.2.2.2 OSErr.fileExistsError rfl⟩

/-! ### Claim C9 -/

/-- Every key code `process_key_press` (or `run`, for `q`) reacts to. -/
def bound_keys : List Int :=
  [KEY_UP, ord_k, KEY_A2, KEY_DOWN, ord_j, KEY_C2, KEY_LEFT, KEY_B1, ord_h,
    KEY_RIGHT, KEY_B3, ord_l, ord_x, ord_a, KEY_F7, ord_q]

/-- C9: a key event that is none of the bound keys falls through every branch
of `process_key_press`, leaving `current_dir`, `cursor` and the filesystem
unchanged. -/
theorem unbound_key_is_noop (fs : FS) (st : AppState) (files : List String)
    (key : Int) (inp : String) (hk : key ∉ bound_keys) :
    process_key_press fs st files key inp = (fs, st) := by
  simp only [bound_keys, List.mem_cons, List.not_mem_nil, or_false,
    not_or] at hk
  obtain ⟨n1, n2, n3, n4, n5, n6, n7, n8, n9, n10, n11, n12, n13, n14, n15,
    n16⟩ := hk
  unfold process_key_press
  rw [if_neg (fun h => by rcases h.1 with h | h | h; exacts [n1 h, n2 h, n3 h]),
    if_neg (fun h => by rcases h.1 with h | h | h; exacts [n4 h, n5 h, n6 h]),
    if_neg (fun h => by rcases h with h | h | h; exacts [n7 h, n8 h, n9 h]),
    if_neg (fun h => by rcases h with h | h | h; exacts [n10 h, n11 h, n12 h]),
    if_neg n13, if_neg n14, if_neg n15]

/-- Witness for C9: the unbound key `z` (code 122) is a no-op. -/
theorem unbound_key_is_noop_witness :
    (122 : Int) ∉ bound_keys ∧
    process_key_press fs_mut (AppState.mk [] 1) ["b", "a"] 122 "" =
      (fs_mut, AppState.mk [] 1) :=
  ⟨by decide,
    unbound_key_is_noop fs_mut (AppState.mk [] 1) ["b", "a"] 122 ""
      (by decide)⟩

/-! ### Claim C10 -/

/-- C10: deleting a selected directory always fails — `os.remove` raises
`IsADirectoryError` on a directory — the failure is swallowed, and both the
filesystem and the browser state are unchanged. -/
theorem delete_never_removes_directory (fs : FS) (st : AppState)
    (files : List String) (inp : String) (name : String)
    (hsel : pyIndex files st.cursor = some name)
    (hdir : findNode fs (st.current_dir ++ [name]) = some Node.dir) :
    os_remove fs (st.current_dir ++ [name]) =
      Except.error OSErr.isADirectoryError ∧
    process_key_press fs st files ord_x inp = (fs, st) := by
  have herr : os_remove fs (st.current_dir ++ [name]) =
      Except.error OSErr.isADirectoryError := by
    unfold os_remove
    rw [hdir]
  refine ⟨herr, ?_⟩
  rw [process_key_press_x]
  simp [try_remove_file, hsel, herr]

/-- Witness for C10: pressing `x` on the selected directory `d`. -/
theorem delete_never_removes_directory_witness :
    pyIndex ["d"] (AppState.mk [] 0).cursor = some "d" ∧
    findNode [([], Node.dir), (["d"], Node.dir)]
      ((AppState.mk [] 0).current_dir ++ ["d"]) = some Node.dir ∧
    (os_remove [([], Node.dir), (["d"], Node.dir)]
        ((AppState.mk [] 0).current_dir ++ ["d"]) =
      Except.error OSErr.isADirectoryError ∧
    process_key_press [([], Node.dir), (["d"], Node.dir)] (AppState.mk [] 0)
        ["d"] ord_x "" =
      ([([], Node.dir), (["d"], Node.dir)], AppState.mk [] 0)) :=
  ⟨by decide, by decide,
    delete_never_removes_directory [([], Node.dir), (["d"], Node.dir)]
      (AppState.mk [] 0) ["d"] "" "d" (by decide) (by decide)⟩

end Rang
